import Mathlib

/-
Verification of the fasthttp request-execution pipeline.

The development shallowly embeds the core of the library:
  * the data model (`Route`, `Response`, the error taxonomy) from
    src/fasthttp/routing.py, src/fasthttp/response.py and
    src/fasthttp/exceptions/<plus the flat exceptions.py, whose logic is
    identical on the embedded parts>;
  * the middleware chain (`MiddlewareManager`) from src/fasthttp/middleware.py;
  * the send engine (`HTTPClient.send`) from src/fasthttp/client.py;
  * the runner loop (`FastHTTP._run`) from src/fasthttp/app.py.

Conventions of the embedding:
  * Python exceptions are modelled with `Except String`: a hook, handler or
    transport call that raises exception `e` is a function returning
    `.error (str e)`.  Hook/handler exceptions are modelled as generic
    exceptions (they are not of the transport fault classes).
  * Observable side effects (calls of `error.log()`, `log_success`, the
    runner log lines, `asyncio.sleep`, and each invocation of an
    `on_error` middleware hook) are recorded in an event trace returned
    alongside the result; the pure logger formatting itself is not modelled.
  * Python dicts used as payloads are modelled as association lists; the
    open `details` bag of an error record is modelled by the two entries
    the code ever writes (`body_preview` and `timeout`), each `Option` so
    that an absent key is distinguishable from a present one.
  * Python truthiness tests on optional strings / ints are modelled
    explicitly (`none` and the empty string / zero are falsy).
-/

namespace FastHTTPSpec

/-- HTTP method: the closed five-value enumeration of routing.py
(`Literal["GET", "POST", "PUT", "PATCH", "DELETE"]`). -/
inductive Method where
  | GET
  | POST
  | PUT
  | PATCH
  | DELETE
deriving DecidableEq

/-- Header / params / json-body dicts, modelled as association lists. -/
abbrev Headers := List (String × String)

abbrev Params := List (String × String)

abbrev JsonBody := List (String × String)

abbrev RawData := String

/-- Per-method request configuration (types.py `RequestsOptinal`): a dict whose
keys `headers`, `timeout`, `allow_redirects` are all optional. -/
structure Config where
  headers : Option Headers := none
  timeout : Option Nat := none
  allow_redirects : Option Bool := none
deriving DecidableEq

/-- A value stored in `Response._handler_result`: the send engine stores there
the handler's return value when it is not a `Response` (client.py line 118);
such a value is a string or some other (opaque) structured value. -/
inductive HandlerVal where
  | hvStr (s : String)
  | hvOther (v : String)
deriving DecidableEq

/-- Response (response.py): status, raw body text, headers, and the
`_handler_result` slot, `None` after `__init__`.  The request-side echo
fields (`_method`, `_req_headers`, `_query`, `_req_json`, `_req_data`) are
`None` in every Response the send engine builds and are read by none of the
code under verification, so they are omitted. -/
structure Response where
  status : Nat
  text : String
  headers : Headers
  handler_result : Option HandlerVal := none
deriving DecidableEq

/-- A route handler's return value (client.py lines 112-118 dispatches on it):
a `Response`, a string, some other structured value, or `None`. -/
inductive HandlerRet where
  | hResp (r : Response)
  | hStr (s : String)
  | hOther (v : String)
  | hNone
deriving DecidableEq

/-- The timeout value recorded in a Timeout error's details
(`config.get("timeout", "default")` in client.py line 135):
either the string `"default"` or the configured number. -/
inductive TimeoutVal where
  | tvDefault
  | tvNum (n : Nat)
deriving DecidableEq

/-- Python truthiness of a `TimeoutVal` (`"default"` is truthy, a number is
truthy iff nonzero), used by `details = {"timeout": timeout} if timeout else {}`
in exceptions/timeout.py. -/
def TimeoutVal.truthy : TimeoutVal → Bool
  | .tvDefault => true
  | .tvNum n => n ≠ 0

/-- The open `details` dict of an error record, restricted to the two keys the
code ever writes: `body_preview` (exceptions/status.py) and `timeout`
(exceptions/timeout.py).  `none` models an absent key. -/
structure Details where
  body_preview : Option String := none
  timeout : Option TimeoutVal := none
deriving DecidableEq

/-- The five variants of the error taxonomy (exceptions/). -/
inductive ErrKind where
  | connection
  | timeout
  | badStatus
  | request
  | validation
deriving DecidableEq

/-- Common shape of all error records (exceptions/base.py `FastHTTPError`). -/
structure ErrorRecord where
  kind : ErrKind
  message : String
  url : Option String := none
  method : Option Method := none
  status_code : Option Nat := none
  details : Details := {}
deriving DecidableEq

/-- Python `s or dflt` for strings: the empty string is falsy. -/
def strOr (s : String) (dflt : String) : String :=
  if s = "" then dflt else s

/-- Python `b[:n]`: the first `n` characters of a string. -/
def strTake (s : String) (n : Nat) : String :=
  ⟨s.data.take n⟩

/-- FastHTTPConnectionError.__init__ (exceptions/connect.py): message, url,
method, no extra details. -/
def mkConnectionError (message : String) (url : String) (method : Method) : ErrorRecord :=
  { kind := .connection, message := message, url := some url, method := some method }

/-- FastHTTPRequestError.__init__ (exceptions/request.py): message, url,
method, no extra details. -/
def mkRequestError (message : String) (url : String) (method : Method) : ErrorRecord :=
  { kind := .request, message := message, url := some url, method := some method }

/-- FastHTTPTimeoutError.__init__ (exceptions/timeout.py):
`timeout_msg = message or "Request timed out"`;
`details = {"timeout": timeout} if timeout else {}`. -/
def mkTimeoutError (message : Option String) (url : Option String)
    (method : Option Method) (timeout : Option TimeoutVal) : ErrorRecord :=
  { kind := .timeout
    message :=
      match message with
      | some m => strOr m "Request timed out"
      | none => "Request timed out"
    url := url
    method := method
    details :=
      { timeout :=
          match timeout with
          | some tv => if tv.truthy then some tv else none
          | none => none } }

/-- FastHTTPBadStatusError.__init__ (exceptions/status.py lines 72-88):
`status_msg = message or (f"HTTP {status_code}" if status_code else "Bad status")`;
`if response_body: details["body_preview"] = response_body[:100] + "..." if
len(response_body) > 100 else response_body`.  Note the `if response_body:`
guard: a `None` or empty body stores no `body_preview` key at all, and Python
truthiness makes `status_code = 0` fall back to `"Bad status"`. -/
def mkBadStatusError (message : Option String) (url : Option String)
    (method : Option Method) (status_code : Option Nat)
    (response_body : Option String) : ErrorRecord :=
  { kind := .badStatus
    message :=
      match message with
      | some m =>
          if m = "" then
            match status_code with
            | some c => if c = 0 then "Bad status" else "HTTP " ++ toString c
            | none => "Bad status"
          else m
      | none =>
          match status_code with
          | some c => if c = 0 then "Bad status" else "HTTP " ++ toString c
          | none => "Bad status"
    url := url
    method := method
    status_code := status_code
    details :=
      { body_preview :=
          match response_body with
          | some b =>
              if b = "" then none
              else if 100 < b.length then some (strTake b 100 ++ "...") else some b
          | none => none } }

/-- Outcome of one transport call (`session.request` in client.py): a
status/body/headers triple, or one of the three fault classes the engine
distinguishes (`aiohttp.ClientConnectorError`, `asyncio.TimeoutError`, any
other `Exception`), each carrying its stringified message. -/
inductive TransportResult where
  | ok (status : Nat) (body : String) (headers : Headers)
  | connError (msg : String)
  | timeoutError (msg : String)
  | otherError (msg : String)
deriving DecidableEq

/-- The opaque transport capability: one request from
method, url, headers, params, json body, raw data and timeout
to a `TransportResult` (client.py lines 68-76). -/
abbrev Transport :=
  Method → String → Option Headers → Option Params → Option JsonBody →
    Option RawData → Option Nat → TransportResult

/-- A route (routing.py `Route.__init__` fields, i.e. the Route record the
pipeline operates on).  `response_model` is the validation capability read by
`FastHTTP._run` (app.py lines 287-297); app.py's `_add_route` passes it in
its `Route(...)` call although routing.py's `Route.__init__` does not declare
it — that mismatch is the subject of the C1 theorem, and the field is
included here because the runner's reads require it.  The pydantic
`model_validate` step (single model, or element-wise for a `list[...]`
model) is abstracted at its interface as a function on the stored handler
result that may raise. -/
structure Route where
  method : Method
  url : String
  handler : Response → Except String HandlerRet
  params : Option Params := none
  json : Option JsonBody := none
  data : Option RawData := none
  response_model : Option (HandlerVal → Except String Unit) := none

/-- A middleware hook object (middleware.py `BaseMiddleware`): the three
optional lifecycle hooks, with the signatures of §4.1.  A hook that raises
exception `e` is modelled as returning `.error (str e)`. -/
structure Middleware where
  before_request : Route → Config → Except String Config
  after_response : Response → Route → Config → Except String Response
  on_error : ErrorRecord → Route → Config → Except String Unit

/-- The observable events of one run, in the order they happen:
`error.log()` calls, each invocation of a middleware `on_error` hook
(by position in the chain), the `log_success` line, the invocation of the
route handler, the runner's per-route success/failure lines, and
`asyncio.sleep` pauses. -/
inductive Event where
  | errorLogged (e : ErrorRecord)
  | onErrorHook (i : Nat) (e : ErrorRecord)
  | logSuccess (url : String) (method : Method) (status : Nat)
  | handlerCalled (r : Response)
  | logOk (method : Method) (url : String) (status : Nat)
  | logFail (method : Method) (url : String)
  | sleep (q : ℚ)
deriving DecidableEq

/-- MiddlewareManager.process_before_request (middleware.py lines 298-301):
feed the same route and a threaded config through each middleware's
`before_request` in registration order; a raise inside a hook propagates. -/
def processBeforeRequest (mws : List Middleware) (route : Route)
    (config : Config) : Except String Config :=
  match mws with
  | [] => .ok config
  | mw :: rest =>
    match mw.before_request route config with
    | .error e => .error e
    | .ok c => processBeforeRequest rest route c

/-- MiddlewareManager.process_after_response (middleware.py lines 358-363):
identical threading discipline over the Response. -/
def processAfterResponse (mws : List Middleware) (response : Response)
    (route : Route) (config : Config) : Except String Response :=
  match mws with
  | [] => .ok response
  | mw :: rest =>
    match mw.after_response response route config with
    | .error e => .error e
    | .ok r => processAfterResponse rest r route config

/-- MiddlewareManager.process_on_error (middleware.py lines 418-419), with the
chain position threaded so the trace records which middleware ran: each hook
is invoked in registration order for side effects only; a raise stops the
chain and propagates.  The event for a hook is recorded when the hook is
invoked, whether or not it raises. -/
def runOnErrorFrom (mws : List Middleware) (i : Nat) (err : ErrorRecord)
    (route : Route) (config : Config) : List Event × Except String Unit :=
  match mws with
  | [] => ([], .ok ())
  | mw :: rest =>
    match mw.on_error err route config with
    | .error e => ([Event.onErrorHook i err], .error e)
    | .ok _ =>
      let p := runOnErrorFrom rest (i + 1) err route config
      (Event.onErrorHook i err :: p.1, p.2)

/-- MiddlewareManager.process_on_error starting at the head of the chain. -/
def processOnError (mws : List Middleware) (err : ErrorRecord) (route : Route)
    (config : Config) : List Event × Except String Unit :=
  runOnErrorFrom mws 0 err route config

/-- The trace left by a complete, non-raising pass over the `on_error` chain
of `n` middlewares: hooks `0, 1, ..., n-1` in registration order, each with
the same error record. -/
def onErrorEvents (n : Nat) (err : ErrorRecord) : List Event :=
  (List.range n).map (fun i => Event.onErrorHook i err)

/-- The transport invocation of one send (client.py lines 68-76): the
arguments `session.request` receives from the route and the resolved
config. -/
def transportCall (transport : Transport) (route : Route) (config : Config) :
    TransportResult :=
  transport route.method route.url config.headers route.params route.json
    route.data config.timeout

/-- HTTPClient.send (client.py lines 31-160).  Returns the event trace and
either `.ok (some response)` (successful exchange), `.ok none` (the absence
signal), or `.error e` (an exception that propagated out of `send`).

Control flow mirrored from the source:
  * config lookup and the `before_request` chain run before the `try` block,
    so a raise there propagates;
  * the transport call and everything up to the handler fold run inside the
    `try`;
  * a status ≥ 400 logs a BadStatus error and runs the `on_error` chain
    still inside the `try`: a raise inside that chain is caught by the
    generic `except Exception` handler below;
  * on a status < 400 the body is read, `log_success` runs, a Response is
    built, the `after_response` chain and then the handler run — a raise in
    either is likewise caught by `except Exception`;
  * the three `except` branches build the corresponding error record, log
    it, and run the `on_error` chain; a raise inside that chain happens in
    the handler clause and therefore propagates out of `send`. -/
def HTTPClient.send (request_configs : Method → Config) (mws : List Middleware)
    (transport : Transport) (route : Route) :
    List Event × Except String (Option Response) :=
  match processBeforeRequest mws route (request_configs route.method) with
  | .error e => ([], .error e)
  | .ok config =>
    match transportCall transport route config with
    | .connError m =>
      let err := mkConnectionError (strOr m "Connection failed") route.url route.method
      let p := processOnError mws err route config
      (Event.errorLogged err :: p.1,
        match p.2 with
        | .ok _ => .ok none
        | .error e2 => .error e2)
    | .timeoutError m =>
      let tv : TimeoutVal :=
        match config.timeout with
        | some n => .tvNum n
        | none => .tvDefault
      let err := mkTimeoutError (some (strOr m "Request timed out"))
        (some route.url) (some route.method) (some tv)
      let p := processOnError mws err route config
      (Event.errorLogged err :: p.1,
        match p.2 with
        | .ok _ => .ok none
        | .error e2 => .error e2)
    | .otherError m =>
      let err := mkRequestError (strOr m "Unknown error") route.url route.method
      let p := processOnError mws err route config
      (Event.errorLogged err :: p.1,
        match p.2 with
        | .ok _ => .ok none
        | .error e2 => .error e2)
    | .ok status body hdrs =>
      if 400 ≤ status then
        let err := mkBadStatusError (some ("HTTP " ++ toString status))
          (some route.url) (some route.method) (some status) (some body)
        let p := processOnError mws err route config
        match p.2 with
        | .ok _ => (Event.errorLogged err :: p.1, .ok none)
        | .error m2 =>
          let err2 := mkRequestError (strOr m2 "Unknown error") route.url route.method
          let p2 := processOnError mws err2 route config
          (Event.errorLogged err :: p.1 ++ Event.errorLogged err2 :: p2.1,
            match p2.2 with
            | .ok _ => .ok none
            | .error e3 => .error e3)
      else
        let resp0 : Response := { status := status, text := body, headers := hdrs }
        match processAfterResponse mws resp0 route config with
        | .error m2 =>
          let err2 := mkRequestError (strOr m2 "Unknown error") route.url route.method
          let p2 := processOnError mws err2 route config
          (Event.logSuccess route.url route.method status ::
              Event.errorLogged err2 :: p2.1,
            match p2.2 with
            | .ok _ => .ok none
            | .error e3 => .error e3)
        | .ok resp =>
          match route.handler resp with
          | .error m2 =>
            let err2 := mkRequestError (strOr m2 "Unknown error") route.url route.method
            let p2 := processOnError mws err2 route config
            (Event.logSuccess route.url route.method status ::
                Event.handlerCalled resp :: Event.errorLogged err2 :: p2.1,
              match p2.2 with
              | .ok _ => .ok none
              | .error e3 => .error e3)
          | .ok hret =>
            let finalResp : Response :=
              match hret with
              | .hResp r => r
              | .hStr s => { resp with text := s, handler_result := some (.hvStr s) }
              | .hOther v => { resp with handler_result := some (.hvOther v) }
              | .hNone => { resp with handler_result := none }
            ([Event.logSuccess route.url route.method status,
                Event.handlerCalled resp], .ok (some finalResp))

/-- The runner's post-success validation step (app.py lines 286-297):
`handler_result = getattr(result, "_handler_result", None)`;
`if route.response_model and handler_result is not None:` validate/coerce it
(pydantic `model_validate`, element-wise for list models, abstracted as the
route's `response_model` function); a coercion failure propagates. -/
def runnerValidate (route : Route) (resp : Response) : Except String Unit :=
  match route.response_model, resp.handler_result with
  | some validate, some hr => validate hr
  | _, _ => .ok ()

/-- FastHTTP._run's per-route loop (app.py lines 270-310).  For each route in
registration order: call the send engine; a raise out of `send` propagates and
aborts the loop; a Response result logs the success line and then validates
the stored handler result (a coercion failure propagates and aborts the
loop); an absent result logs the failure line; either way the loop then
sleeps 0.5 and continues with the remaining routes.  The surrounding
run-level log lines and timing are not modelled. -/
def FastHTTP.runLoop (request_configs : Method → Config) (mws : List Middleware)
    (transport : Transport) : List Route → List Event × Except String Unit
  | [] => ([], .ok ())
  | route :: rest =>
    let p := HTTPClient.send request_configs mws transport route
    match p.2 with
    | .error m => (p.1, .error m)
    | .ok (some resp) =>
      match runnerValidate route resp with
      | .error m =>
        (p.1 ++ [Event.logOk route.method route.url resp.status], .error m)
      | .ok _ =>
        let q := FastHTTP.runLoop request_configs mws transport rest
        (p.1 ++ Event.logOk route.method route.url resp.status ::
          Event.sleep (1 / 2) :: q.1, q.2)
    | .ok none =>
      let q := FastHTTP.runLoop request_configs mws transport rest
      (p.1 ++ Event.logFail route.method route.url ::
        Event.sleep (1 / 2) :: q.1, q.2)

/-
Route registration (app.py `FastHTTP._add_route`, routing.py `Route.__init__`).
The decorator body executes
    Route(method=..., url=..., handler=func, params=..., json=..., data=...,
          response_model=...)
and Python raises `TypeError: __init__() got an unexpected keyword argument`
whenever a keyword argument is not among the callee's declared keyword-only
parameters (routing.py declares no `response_model` parameter and no
`**kwargs`).  The keyword lists below are transcribed from the two
signatures, and `pythonKwCall` is Python's keyword-binding rule at the
granularity of argument names.
-/

/-- The keyword parameters `Route.__init__` declares (routing.py lines 17-89):
`method`, `url`, `handler`, `params`, `json`, `data` — and nothing else. -/
def routeInitParams : List String :=
  ["method", "url", "handler", "params", "json", "data"]

/-- The keyword arguments `FastHTTP._add_route` passes in its `Route(...)`
call (app.py lines 185-195). -/
def addRouteCallKwargs : List String :=
  ["method", "url", "handler", "params", "json", "data", "response_model"]

/-- Python keyword binding: a call whose keyword arguments are not all among
the callee's declared parameters raises a TypeError naming the first
unexpected keyword. -/
def pythonKwCall (declared : List String) (passed : List String) :
    Except String Unit :=
  match passed.filter (fun k => !(declared.contains k)) with
  | [] => .ok ()
  | k :: _ => .error ("TypeError: unexpected keyword argument " ++ k)

/-
Reference-semantics model of the per-method default configuration
(for the frame-effect claim about `send`).

In client.py line 53, `config = self.request_configs.get(route.method, {})`
binds `config` to the very dict object stored in `request_configs`
(`FastHTTP.__init__` populates all five methods, so the `{}` default never
fires), and `process_before_request` passes that object itself to each
`before_request` hook, which middleware.py documents as mutable ("The config
dict is mutable and changes will affect the request").  To reason about what
a later send observes, config dicts are given Python reference semantics:
they live in a heap of cells, variables hold references, and a hook may both
mutate cells in place and return a (same or different) reference.
-/

/-- A reference to a config dict object. -/
abbrev ConfigRef := Nat

/-- The heap of config dict objects. -/
structure ConfigHeap where
  cells : List Config
deriving DecidableEq

/-- Dereference (out-of-range reads, which never occur in the modelled runs,
default to the empty dict). -/
def ConfigHeap.get (h : ConfigHeap) (r : ConfigRef) : Config :=
  h.cells.getD r {}

/-- In-place mutation of the dict object behind `r`. -/
def ConfigHeap.set (h : ConfigHeap) (r : ConfigRef) (c : Config) : ConfigHeap :=
  ⟨h.cells.set r c⟩

/-- A `before_request` hook under reference semantics: it receives a reference
to the config dict, may mutate the heap, and returns the reference it chose
to return (the same one, or a reference to a fresh dict it allocated). -/
abbrev PreSendHookR := ConfigRef → ConfigHeap → ConfigRef × ConfigHeap

/-- `process_before_request` under reference semantics: thread the reference
through the hooks in registration order. -/
def processBeforeRequestR (hooks : List PreSendHookR) (r : ConfigRef)
    (h : ConfigHeap) : ConfigRef × ConfigHeap :=
  hooks.foldl (fun p f => f p.1 p.2) (r, h)

/-- The client state relevant to config resolution: the per-method map holds
references into the heap (`FastHTTP.__init__` stores the five dicts once). -/
structure ClientStateR where
  request_configs : Method → ConfigRef
  heap : ConfigHeap

/-- The config observed as the defaults of method `m`: what
`request_configs.get(m)` dereferences to, i.e. what the next send of `m`
starts from. -/
def ClientStateR.defaults (st : ClientStateR) (m : Method) : Config :=
  st.heap.get (st.request_configs m)

/-- The config-resolution phase of one send (client.py lines 53-56):
`config = request_configs.get(route.method)` then
`config = process_before_request(route, config)`.  The engine itself performs
no heap write and no rebinding of `request_configs`; the resulting config
value is what the rest of the send uses for this one call. -/
def sendConfigPhaseR (st : ClientStateR) (hooks : List PreSendHookR)
    (m : Method) : Config × ClientStateR :=
  let r := st.request_configs m
  let p := processBeforeRequestR hooks r st.heap
  (ConfigHeap.get p.2 p.1, { st with heap := p.2 })

/-
Helper notions shared by the theorems.
-/

/-- All `on_error` hooks of the chain return normally (no hook raises). -/
def OnErrorTotal (mws : List Middleware) : Prop :=
  ∀ mw ∈ mws, ∀ e r c, mw.on_error e r c = .ok ()

lemma runOnErrorFrom_total (mws : List Middleware) (i : Nat) (err : ErrorRecord)
    (route : Route) (config : Config) (hw : OnErrorTotal mws) :
    runOnErrorFrom mws i err route config =
      ((List.range' i mws.length).map (fun j => Event.onErrorHook j err), .ok ()) := by
  induction mws generalizing i with
  | nil => simp [runOnErrorFrom]
  | cons mw rest ih =>
    have h1 : mw.on_error err route config = .ok () :=
      hw mw (by simp) err route config
    have h2 : OnErrorTotal rest := fun m hm => hw m (by simp [hm])
    simp [runOnErrorFrom, h1, ih (i + 1) h2, List.range'_succ]

lemma processOnError_total (mws : List Middleware) (err : ErrorRecord)
    (route : Route) (config : Config) (hw : OnErrorTotal mws) :
    processOnError mws err route config = (onErrorEvents mws.length err, .ok ()) := by
  rw [processOnError, runOnErrorFrom_total mws 0 err route config hw,
    onErrorEvents, List.range_eq_range']

/-- A middleware with all three hooks at their `BaseMiddleware` defaults
(pass-through / no-op). -/
def idMiddleware : Middleware :=
  { before_request := fun _ c => .ok c
    after_response := fun r _ _ => .ok r
    on_error := fun _ _ _ => .ok () }

/-- A middleware whose `before_request` hook raises. -/
def beforeBoomMiddleware : Middleware :=
  { before_request := fun _ _ => .error "boom before"
    after_response := fun r _ _ => .ok r
    on_error := fun _ _ _ => .ok () }

/-- A middleware whose `after_response` hook raises. -/
def afterBoomMiddleware : Middleware :=
  { before_request := fun _ c => .ok c
    after_response := fun _ _ _ => .error "boom after"
    on_error := fun _ _ _ => .ok () }

/-- A middleware whose `on_error` hook raises. -/
def onErrorBoomMiddleware : Middleware :=
  { before_request := fun _ c => .ok c
    after_response := fun r _ _ => .ok r
    on_error := fun _ _ _ => .error "boom on error" }

/-- A middleware whose `before_request` hook applies a pure config
transformation (returns the transformed config, raises nothing). -/
def pureBeforeMw (f : Config → Config) : Middleware :=
  { before_request := fun _ c => .ok (f c)
    after_response := fun r _ _ => .ok r
    on_error := fun _ _ _ => .ok () }

/-- A handler returning a fixed value, never raising. -/
def constHandler (v : HandlerRet) : Response → Except String HandlerRet :=
  fun _ => .ok v

/-- A handler that raises. -/
def boomHandler : Response → Except String HandlerRet :=
  fun _ => .error "boom handler"

/-- A sample GET route. -/
def sampleRoute (h : Response → Except String HandlerRet) : Route :=
  { method := .GET, url := "https://api.test/ok", handler := h }

/-- A transport returning the same outcome for every request. -/
def constTransport (res : TransportResult) : Transport :=
  fun _ _ _ _ _ _ _ => res

/-- The per-method defaults of a `FastHTTP()` constructed with no
per-method configuration: every method maps to the empty config dict. -/
def emptyConfigs : Method → Config := fun _ => {}

/-
Claim theorems.
-/

/-- C1: the claim says a registration call whose method is one of the five
enumerated values appends exactly one Route and returns the handler with no
failure.  The code violates this: the decorator body built by
`FastHTTP._add_route` always calls `Route(...)` with the keyword argument
`response_model`, which `Route.__init__` (keyword-only, no `**kwargs`) does
not declare, so every registration call raises
`TypeError: unexpected keyword argument 'response_model'` before anything is
appended.  This theorem evaluates Python's keyword-binding rule at that call:
the call has exactly one unexpected keyword, `response_model`, hence raises. -/
theorem c1_registration_raises :
    addRouteCallKwargs.filter (fun k => !(routeInitParams.contains k)) =
      ["response_model"] ∧
    pythonKwCall routeInitParams addRouteCallKwargs =
      .error "TypeError: unexpected keyword argument response_model" := by
  exact ⟨rfl, rfl⟩

/-- C7: `process_before_request` feeds the same route and a threaded config
through each hook in registration order — the empty chain returns the input
config unchanged; for a non-empty chain, the head hook's returned config is
exactly the input threaded through the rest of the chain; and a chain of
pure config transformations computes their left fold, so the last hook's
return value is the overall result. -/
theorem c7_pre_send_threading :
    (∀ route config, processBeforeRequest [] route config = .ok config) ∧
    (∀ mw mws route config config2,
      mw.before_request route config = .ok config2 →
      processBeforeRequest (mw :: mws) route config =
        processBeforeRequest mws route config2) ∧
    (∀ fs : List (Config → Config), ∀ route config,
      processBeforeRequest (fs.map pureBeforeMw) route config =
        .ok (fs.foldl (fun c f => f c) config)) := by
  refine ⟨fun _ _ => rfl, ?_, ?_⟩
  · intro mw mws route config config2 h
    simp [processBeforeRequest, h]
  · intro fs
    induction fs with
    | nil => intro route config; rfl
    | cons f fs ih =>
      intro route config
      simp [processBeforeRequest, pureBeforeMw, ih]

/-- C7 witness: the cons-threading clause at a concrete hook, route and
config. -/
theorem c7_pre_send_threading_witness :
    idMiddleware.before_request (sampleRoute (constHandler .hNone)) {} = .ok {} ∧
    processBeforeRequest [idMiddleware] (sampleRoute (constHandler .hNone)) {} =
      processBeforeRequest [] (sampleRoute (constHandler .hNone)) {} :=
  ⟨rfl, c7_pre_send_threading.2.1 idMiddleware [] (sampleRoute (constHandler .hNone))
    {} {} rfl⟩

/-- C8 counterexample: the claim quantifies over every response body string
`b` and demands, for `b` of length at most 100, that `details.body_preview`
equal `b` unchanged.  For the empty body (length 0 ≤ 100) the code's
`if response_body:` truthiness guard stores no `body_preview` key at all, so
the preview is absent rather than equal to `""`. -/
theorem c8_preview_counterexample :
    (mkBadStatusError (some "HTTP 422") (some "https://api.test/fail")
        (some Method.POST) (some 422) (some "")).details.body_preview = none ∧
    (mkBadStatusError (some "HTTP 422") (some "https://api.test/fail")
        (some Method.POST) (some 422) (some "")).details.body_preview ≠ some "" := by
  exact ⟨rfl, by decide⟩

/-- C8 (amended): for every non-empty response body `b` used to build a
BadStatus error: if `b` is longer than 100 characters, `details.body_preview`
is the first 100 characters of `b` followed by the ellipsis marker `"..."`,
of total length 103, and its first 100 characters are those of `b`; if `b`
has length at most 100 (and is non-empty), the preview is `b` unchanged.
(The empty body stores no preview at all — the counterexample above.) -/
theorem c8_preview_truncation (message url : Option String)
    (method : Option Method) (sc : Option Nat) (b : String) (hb : b ≠ "") :
    (100 < b.length →
      (mkBadStatusError message url method sc (some b)).details.body_preview =
        some (strTake b 100 ++ "...") ∧
      (strTake b 100 ++ "...").length = 103 ∧
      strTake (strTake b 100 ++ "...") 100 = strTake b 100) ∧
    (b.length ≤ 100 →
      (mkBadStatusError message url method sc (some b)).details.body_preview =
        some b) := by
  have hlen : (strTake b 100).length = min 100 b.length := by
    show (b.data.take 100).length = min 100 b.length
    exact List.length_take 100 b.data
  constructor
  · intro h
    have h100 : (b.data.take 100).length = 100 := by
      rw [List.length_take]
      exact Nat.min_eq_left h.le
    refine ⟨?_, ?_, ?_⟩
    · simp [mkBadStatusError, hb, h]
    · rw [String.length_append, hlen, Nat.min_eq_left h.le]
      rfl
    · have hd : (strTake b 100 ++ "...").data =
          List.take 100 b.data ++ ['.', '.', '.'] := rfl
      show (⟨List.take 100 ((strTake b 100 ++ "...").data)⟩ : String) =
        (⟨List.take 100 b.data⟩ : String)
      rw [hd, List.take_append_eq_append_take, h100]
      simp [List.take_of_length_le h100.le]
  · intro h
    simp [mkBadStatusError, hb, Nat.not_lt.mpr h]

set_option maxRecDepth 4096 in
/-- C8 witness: the amended theorem at a 150-character body and at a short
body. -/
theorem c8_preview_truncation_witness :
    (⟨List.replicate 150 'a'⟩ : String) ≠ "" ∧
    100 < (⟨List.replicate 150 'a'⟩ : String).length ∧
    (mkBadStatusError none none none none
        (some ⟨List.replicate 150 'a'⟩)).details.body_preview =
      some (strTake ⟨List.replicate 150 'a'⟩ 100 ++ "...") ∧
    (mkBadStatusError none none none none
        (some "bad input")).details.body_preview = some "bad input" :=
  ⟨by decide, by decide,
    ((c8_preview_truncation none none none none ⟨List.replicate 150 'a'⟩
      (by decide)).1 (by decide)).1,
    (c8_preview_truncation none none none none "bad input" (by decide)).2
      (by decide)⟩

/-- C2: when the pre-send chain resolves a config normally and no `on_error`
hook raises, each of the four fault outcomes of the transport exchange — a
connectivity fault, a timeout fault, any other fault, and a status ≥ 400 —
makes `send` return the absence signal without raising, after logging the
corresponding error record and invoking every `on_error` hook exactly once,
in registration order, with that record. -/
theorem c2_fault_absorption (request_configs : Method → Config)
    (mws : List Middleware) (transport : Transport) (route : Route)
    (config : Config)
    (hb : processBeforeRequest mws route (request_configs route.method) =
      .ok config)
    (hw : OnErrorTotal mws) :
    (∀ m, transportCall transport route config = .connError m →
      HTTPClient.send request_configs mws transport route =
        (Event.errorLogged (mkConnectionError (strOr m "Connection failed")
            route.url route.method) ::
          onErrorEvents mws.length (mkConnectionError (strOr m "Connection failed")
            route.url route.method), .ok none)) ∧
    (∀ m, transportCall transport route config = .timeoutError m →
      HTTPClient.send request_configs mws transport route =
        (Event.errorLogged (mkTimeoutError (some (strOr m "Request timed out"))
            (some route.url) (some route.method)
            (some (match config.timeout with
                   | some n => TimeoutVal.tvNum n
                   | none => TimeoutVal.tvDefault))) ::
          onErrorEvents mws.length
            (mkTimeoutError (some (strOr m "Request timed out"))
              (some route.url) (some route.method)
              (some (match config.timeout with
                     | some n => TimeoutVal.tvNum n
                     | none => TimeoutVal.tvDefault))), .ok none)) ∧
    (∀ m, transportCall transport route config = .otherError m →
      HTTPClient.send request_configs mws transport route =
        (Event.errorLogged (mkRequestError (strOr m "Unknown error")
            route.url route.method) ::
          onErrorEvents mws.length (mkRequestError (strOr m "Unknown error")
            route.url route.method), .ok none)) ∧
    (∀ s body hdrs, transportCall transport route config = .ok s body hdrs →
      400 ≤ s →
      HTTPClient.send request_configs mws transport route =
        (Event.errorLogged (mkBadStatusError (some ("HTTP " ++ toString s))
            (some route.url) (some route.method) (some s) (some body)) ::
          onErrorEvents mws.length
            (mkBadStatusError (some ("HTTP " ++ toString s)) (some route.url)
              (some route.method) (some s) (some body)), .ok none)) := by
  have hpo : ∀ err, processOnError mws err route config =
      (onErrorEvents mws.length err, .ok ()) :=
    fun err => processOnError_total mws err route config hw
  refine ⟨?_, ?_, ?_, ?_⟩
  · intro m hm
    simp only [HTTPClient.send, hb, hm, hpo]
  · intro m hm
    simp only [HTTPClient.send, hb, hm, hpo]
  · intro m hm
    simp only [HTTPClient.send, hb, hm, hpo]
  · intro s body hdrs hm h4
    simp only [HTTPClient.send, hb, hm, hpo, if_pos h4]

/-- C2 witness: a connectivity fault with one pass-through middleware. -/
theorem c2_fault_absorption_witness :
    processBeforeRequest [idMiddleware] (sampleRoute (constHandler .hNone))
      (emptyConfigs Method.GET) = .ok {} ∧
    OnErrorTotal [idMiddleware] ∧
    transportCall (constTransport (.connError "nope"))
      (sampleRoute (constHandler .hNone)) {} = .connError "nope" ∧
    HTTPClient.send emptyConfigs [idMiddleware]
        (constTransport (.connError "nope")) (sampleRoute (constHandler .hNone)) =
      (Event.errorLogged (mkConnectionError (strOr "nope" "Connection failed")
          "https://api.test/ok" Method.GET) ::
        onErrorEvents 1 (mkConnectionError (strOr "nope" "Connection failed")
          "https://api.test/ok" Method.GET), .ok none) := by
  have hw : OnErrorTotal [idMiddleware] := by
    intro mw hmw e r c
    rcases List.mem_singleton.mp hmw
    rfl
  exact ⟨rfl, hw,  rfl,
    (c2_fault_absorption emptyConfigs [idMiddleware]
      (constTransport (.connError "nope")) (sampleRoute (constHandler .hNone))
      {} rfl hw).1 "nope" rfl⟩

/-- C3: for every status code `s` the transport returns: if `s ≥ 400`, `send`
returns absence, a BadStatus error whose `status_code` equals `s` is logged,
and the handler is never invoked; if `s < 400`, a Response is constructed
from the exchange and — once the post-receive chain returns normally — the
route's handler is invoked with the resulting Response. -/
theorem c3_status_partition (request_configs : Method → Config)
    (mws : List Middleware) (transport : Transport) (route : Route)
    (config : Config)
    (hb : processBeforeRequest mws route (request_configs route.method) =
      .ok config)
    (hw : OnErrorTotal mws) :
    (∀ s body hdrs, transportCall transport route config = .ok s body hdrs →
      400 ≤ s →
      (HTTPClient.send request_configs mws transport route).2 = .ok none ∧
      (mkBadStatusError (some ("HTTP " ++ toString s)) (some route.url)
        (some route.method) (some s) (some body)).status_code = some s ∧
      Event.errorLogged (mkBadStatusError (some ("HTTP " ++ toString s))
          (some route.url) (some route.method) (some s) (some body)) ∈
        (HTTPClient.send request_configs mws transport route).1 ∧
      (∀ r, Event.handlerCalled r ∉
        (HTTPClient.send request_configs mws transport route).1)) ∧
    (∀ s body hdrs resp1, transportCall transport route config = .ok s body hdrs →
      s < 400 →
      processAfterResponse mws { status := s, text := body, headers := hdrs }
        route config = .ok resp1 →
      Event.handlerCalled resp1 ∈
        (HTTPClient.send request_configs mws transport route).1) := by
  have hpo : ∀ err, processOnError mws err route config =
      (onErrorEvents mws.length err, .ok ()) :=
    fun err => processOnError_total mws err route config hw
  constructor
  · intro s body hdrs hm h4
    have hsend : HTTPClient.send request_configs mws transport route =
        (Event.errorLogged (mkBadStatusError (some ("HTTP " ++ toString s))
            (some route.url) (some route.method) (some s) (some body)) ::
          onErrorEvents mws.length
            (mkBadStatusError (some ("HTTP " ++ toString s)) (some route.url)
              (some route.method) (some s) (some body)), .ok none) := by
      simp only [HTTPClient.send, hb, hm, hpo, if_pos h4]
    refine ⟨by rw [hsend], rfl, by rw [hsend]; simp, ?_⟩
    intro r
    rw [hsend]
    simp [onErrorEvents]
  · intro s body hdrs resp1 hm hs ha
    have hn : ¬ 400 ≤ s := Nat.not_le.mpr hs
    cases hh : route.handler resp1 with
    | error m =>
      simp only [HTTPClient.send, hb, hm, if_neg hn, ha, hh]
      simp
    | ok hret =>
      simp only [HTTPClient.send, hb, hm, if_neg hn, ha, hh]
      simp

/-- C3 witness: a 200 exchange reaches the handler; a 422 exchange returns
absence with a BadStatus record carrying 422 and never calls the handler. -/
theorem c3_status_partition_witness :
    processBeforeRequest [] (sampleRoute (constHandler .hNone))
      (emptyConfigs Method.GET) = .ok {} ∧
    OnErrorTotal [] ∧
    transportCall (constTransport (.ok 200 "payload" []))
      (sampleRoute (constHandler .hNone)) {} = .ok 200 "payload" [] ∧
    (200 : Nat) < 400 ∧
    processAfterResponse [] { status := 200, text := "payload", headers := [] }
      (sampleRoute (constHandler .hNone)) {} =
      .ok { status := 200, text := "payload", headers := [] } ∧
    Event.handlerCalled { status := 200, text := "payload", headers := [] } ∈
      (HTTPClient.send emptyConfigs [] (constTransport (.ok 200 "payload" []))
        (sampleRoute (constHandler .hNone))).1 ∧
    (HTTPClient.send emptyConfigs [] (constTransport (.ok 422 "bad input" []))
      (sampleRoute (constHandler .hNone))).2 = .ok none := by
  have hw : OnErrorTotal [] := by
    intro mw hmw e r c
    exact absurd hmw (List.not_mem_nil mw)
  refine ⟨rfl, hw, rfl, by decide, rfl, ?_, ?_⟩
  · exact (c3_status_partition emptyConfigs []
      (constTransport (.ok 200 "payload" [])) (sampleRoute (constHandler .hNone))
      {} rfl hw).2 200 "payload" []
      { status := 200, text := "payload", headers := [] } rfl (by decide) rfl
  · exact ((c3_status_partition emptyConfigs []
      (constTransport (.ok 422 "bad input" [])) (sampleRoute (constHandler .hNone))
      {} rfl hw).1 422 "bad input" [] rfl (by decide)).1

/-- C4 counterexample: the claim says an exception raised in any middleware
hook during route execution propagates to the send engine's caller.  It does
not for a post-receive hook: `process_after_response` is called inside the
`try` block of `send`, so `afterBoomMiddleware`'s raise is caught by the
generic `except Exception` handler, converted into a Request error record
(logged and passed to the on-error hooks), and `send` returns absence
normally instead of raising. -/
theorem c4_hook_exception_counterexample :
    (HTTPClient.send emptyConfigs [afterBoomMiddleware]
        (constTransport (.ok 200 "payload" []))
        (sampleRoute (constHandler .hNone))).2 = .ok none ∧
    Event.errorLogged (mkRequestError "boom after" "https://api.test/ok"
        Method.GET) ∈
      (HTTPClient.send emptyConfigs [afterBoomMiddleware]
        (constTransport (.ok 200 "payload" []))
        (sampleRoute (constHandler .hNone))).1 := by
  exact ⟨rfl, by decide⟩

/-- C4 (amended): a pre-send hook exception propagates to the send engine's
caller (the before_request chain runs before the `try` block), and an
on-error hook exception raised while a transport fault is being handled in
an `except` branch propagates as well; but a post-receive hook exception is
caught by the engine's generic `except Exception` handler, converted into a
generic Request error that is logged and notified to the on-error hooks, and
absorbed into returning absence. -/
theorem c4_hook_exception_paths (request_configs : Method → Config)
    (mws : List Middleware) (transport : Transport) (route : Route) :
    (∀ m, processBeforeRequest mws route (request_configs route.method) =
        .error m →
      HTTPClient.send request_configs mws transport route = ([], .error m)) ∧
    (∀ config m tr m2,
      processBeforeRequest mws route (request_configs route.method) = .ok config →
      transportCall transport route config = .connError m →
      processOnError mws (mkConnectionError (strOr m "Connection failed")
        route.url route.method) route config = (tr, .error m2) →
      HTTPClient.send request_configs mws transport route =
        (Event.errorLogged (mkConnectionError (strOr m "Connection failed")
          route.url route.method) :: tr, .error m2)) ∧
    (∀ config s body hdrs m,
      processBeforeRequest mws route (request_configs route.method) = .ok config →
      transportCall transport route config = .ok s body hdrs → s < 400 →
      processAfterResponse mws { status := s, text := body, headers := hdrs }
        route config = .error m →
      OnErrorTotal mws →
      HTTPClient.send request_configs mws transport route =
        (Event.logSuccess route.url route.method s ::
          Event.errorLogged (mkRequestError (strOr m "Unknown error")
            route.url route.method) ::
          onErrorEvents mws.length (mkRequestError (strOr m "Unknown error")
            route.url route.method), .ok none)) := by
  refine ⟨?_, ?_, ?_⟩
  · intro m hm
    simp only [HTTPClient.send, hm]
  · intro config m tr m2 hb hm hoe
    simp only [HTTPClient.send, hb, hm, hoe]
  · intro config s body hdrs m hb hm hs ha hw
    have hpo : ∀ err, processOnError mws err route config =
        (onErrorEvents mws.length err, .ok ()) :=
      fun err => processOnError_total mws err route config hw
    simp only [HTTPClient.send, hb, hm, if_neg (Nat.not_le.mpr hs), ha, hpo]

/-- C4 witness: the three amended paths at concrete middlewares — a raising
pre-send hook, a raising on-error hook under a connectivity fault, and a
raising post-receive hook. -/
theorem c4_hook_exception_paths_witness :
    processBeforeRequest [beforeBoomMiddleware] (sampleRoute (constHandler .hNone))
      (emptyConfigs Method.GET) = .error "boom before" ∧
    HTTPClient.send emptyConfigs [beforeBoomMiddleware]
      (constTransport (.connError "nope")) (sampleRoute (constHandler .hNone)) =
      ([], .error "boom before") ∧
    processOnError [onErrorBoomMiddleware]
      (mkConnectionError (strOr "nope" "Connection failed") "https://api.test/ok"
        Method.GET) (sampleRoute (constHandler .hNone)) {} =
      ([Event.onErrorHook 0 (mkConnectionError (strOr "nope" "Connection failed")
        "https://api.test/ok" Method.GET)], .error "boom on error") ∧
    HTTPClient.send emptyConfigs [onErrorBoomMiddleware]
      (constTransport (.connError "nope")) (sampleRoute (constHandler .hNone)) =
      (Event.errorLogged (mkConnectionError (strOr "nope" "Connection failed")
          "https://api.test/ok" Method.GET) ::
        [Event.onErrorHook 0 (mkConnectionError (strOr "nope" "Connection failed")
          "https://api.test/ok" Method.GET)], .error "boom on error") ∧
    OnErrorTotal [afterBoomMiddleware] ∧
    HTTPClient.send emptyConfigs [afterBoomMiddleware]
      (constTransport (.ok 200 "payload" [])) (sampleRoute (constHandler .hNone)) =
      (Event.logSuccess "https://api.test/ok" Method.GET 200 ::
        Event.errorLogged (mkRequestError (strOr "boom after" "Unknown error")
          "https://api.test/ok" Method.GET) ::
        onErrorEvents 1 (mkRequestError (strOr "boom after" "Unknown error")
          "https://api.test/ok" Method.GET), .ok none) := by
  have hw : OnErrorTotal [afterBoomMiddleware] := by
    intro mw hmw e r c
    rcases List.mem_singleton.mp hmw
    rfl
  refine ⟨rfl, ?_, rfl, ?_, hw, ?_⟩
  · exact (c4_hook_exception_paths emptyConfigs [beforeBoomMiddleware]
      (constTransport (.connError "nope"))
      (sampleRoute (constHandler .hNone))).1 "boom before" rfl
  · exact (c4_hook_exception_paths emptyConfigs [onErrorBoomMiddleware]
      (constTransport (.connError "nope"))
      (sampleRoute (constHandler .hNone))).2.1 {} "nope"
      [Event.onErrorHook 0 (mkConnectionError (strOr "nope" "Connection failed")
        "https://api.test/ok" Method.GET)] "boom on error" rfl rfl rfl
  · exact (c4_hook_exception_paths emptyConfigs [afterBoomMiddleware]
      (constTransport (.ok 200 "payload" []))
      (sampleRoute (constHandler .hNone))).2.2 {} 200 "payload" [] "boom after"
      rfl rfl (by decide) rfl hw

/-- C6 counterexample: the claim says the `handler_result` slot holds the
handler's return value only when that value is not itself a string or a
Response.  In the code the assignment `response._handler_result =
handler_result` runs for every non-Response return — including strings
(there is no early return in the string branch, client.py lines 115-118) —
so a handler returning the string `"hello"` leaves both `text = "hello"`
and `handler_result = "hello"`. -/
theorem c6_handler_result_counterexample :
    (HTTPClient.send emptyConfigs [] (constTransport (.ok 200 "body" []))
        (sampleRoute (constHandler (.hStr "hello")))).2 =
      .ok (some
        { status := 200, text := "hello", headers := [],
          handler_result := some (HandlerVal.hvStr "hello") }) := by
  exact rfl

/-- C6 (amended): on the success path, a handler returning a string `t`
yields the Response passed to the handler with `text` overwritten to `t`
and `status`/`headers` unchanged — and with `handler_result` also set to
`t`; a handler returning a Response replaces the original entirely; a
handler returning any other value leaves `text` unchanged and stores the
value in `handler_result`; a handler returning nothing stores `None`. -/
theorem c6_handler_fold (request_configs : Method → Config)
    (mws : List Middleware) (transport : Transport) (route : Route)
    (config : Config) (s : Nat) (body : String) (hdrs : Headers)
    (resp1 : Response)
    (hb : processBeforeRequest mws route (request_configs route.method) =
      .ok config)
    (ht : transportCall transport route config = .ok s body hdrs)
    (hs : s < 400)
    (ha : processAfterResponse mws { status := s, text := body, headers := hdrs }
      route config = .ok resp1) :
    (∀ t, route.handler resp1 = .ok (.hStr t) →
      (HTTPClient.send request_configs mws transport route).2 =
        .ok (some
          { resp1 with
            text := t, handler_result := some (HandlerVal.hvStr t) })) ∧
    (∀ r, route.handler resp1 = .ok (.hResp r) →
      (HTTPClient.send request_configs mws transport route).2 = .ok (some r)) ∧
    (∀ v, route.handler resp1 = .ok (.hOther v) →
      (HTTPClient.send request_configs mws transport route).2 =
        .ok (some
          { resp1 with handler_result := some (HandlerVal.hvOther v) })) ∧
    (route.handler resp1 = .ok .hNone →
      (HTTPClient.send request_configs mws transport route).2 =
        .ok (some { resp1 with handler_result := none })) := by
  have hn : ¬ 400 ≤ s := Nat.not_le.mpr hs
  refine ⟨?_, ?_, ?_, ?_⟩
  · intro t hh
    simp only [HTTPClient.send, hb, ht, if_neg hn, ha, hh]
  · intro r hh
    simp only [HTTPClient.send, hb, ht, if_neg hn, ha, hh]
  · intro v hh
    simp only [HTTPClient.send, hb, ht, if_neg hn, ha, hh]
  · intro hh
    simp only [HTTPClient.send, hb, ht, if_neg hn, ha, hh]

/-- C6 witness: the Response-returning and other-value cases at concrete
inputs. -/
theorem c6_handler_fold_witness :
    processBeforeRequest [] (sampleRoute (constHandler
      (.hResp { status := 999, text := "new", headers := [] })))
      (emptyConfigs Method.GET) = .ok {} ∧
    (200 : Nat) < 400 ∧
    (sampleRoute (constHandler
        (.hResp { status := 999, text := "new", headers := [] }))).handler
        { status := 200, text := "payload", headers := [] } =
      .ok (.hResp { status := 999, text := "new", headers := [] }) ∧
    (HTTPClient.send emptyConfigs [] (constTransport (.ok 200 "payload" []))
      (sampleRoute (constHandler
        (.hResp { status := 999, text := "new", headers := [] })))).2 =
      .ok (some { status := 999, text := "new", headers := [] }) ∧
    (HTTPClient.send emptyConfigs [] (constTransport (.ok 200 "payload" []))
      (sampleRoute (constHandler (.hOther "structured")))).2 =
      .ok (some
        { status := 200, text := "payload", headers := [],
          handler_result := some (HandlerVal.hvOther "structured") }) := by
  refine ⟨rfl, by decide, rfl, ?_, ?_⟩
  · exact (c6_handler_fold emptyConfigs [] (constTransport (.ok 200 "payload" []))
      (sampleRoute (constHandler
        (.hResp { status := 999, text := "new", headers := [] }))) {}
      200 "payload" []
      { status := 200, text := "payload", headers := [] } rfl rfl (by decide)
      rfl).2.1 { status := 999, text := "new", headers := [] } rfl
  · exact (c6_handler_fold emptyConfigs [] (constTransport (.ok 200 "payload" []))
      (sampleRoute (constHandler (.hOther "structured"))) {} 200 "payload" []
      { status := 200, text := "payload", headers := [] } rfl rfl (by decide)
      rfl).2.2.1 "structured" rfl

/-- C10: on a successful exchange (status < 400, post-receive chain normal),
a handler that raises exception `m` is caught by the engine's generic
`except Exception` handler: `send` logs a Request error whose message is the
stringified exception (`"Unknown error"` when that string is empty), invokes
every on-error hook exactly once in registration order with that record, and
returns absence — at the send interface indistinguishable from a transport
failure. -/
theorem c10_handler_crash_absorbed (request_configs : Method → Config)
    (mws : List Middleware) (transport : Transport) (route : Route)
    (config : Config) (s : Nat) (body : String) (hdrs : Headers)
    (resp1 : Response) (m : String)
    (hb : processBeforeRequest mws route (request_configs route.method) =
      .ok config)
    (ht : transportCall transport route config = .ok s body hdrs)
    (hs : s < 400)
    (ha : processAfterResponse mws { status := s, text := body, headers := hdrs }
      route config = .ok resp1)
    (hh : route.handler resp1 = .error m)
    (hw : OnErrorTotal mws) :
    HTTPClient.send request_configs mws transport route =
      (Event.logSuccess route.url route.method s ::
        Event.handlerCalled resp1 ::
        Event.errorLogged (mkRequestError (strOr m "Unknown error")
          route.url route.method) ::
        onErrorEvents mws.length (mkRequestError (strOr m "Unknown error")
          route.url route.method), .ok none) := by
  have hpo : ∀ err, processOnError mws err route config =
      (onErrorEvents mws.length err, .ok ()) :=
    fun err => processOnError_total mws err route config hw
  simp only [HTTPClient.send, hb, ht, if_neg (Nat.not_le.mpr hs), ha, hh, hpo]

/-- C10 witness: a raising handler on a 200 exchange. -/
theorem c10_handler_crash_absorbed_witness :
    processBeforeRequest [] (sampleRoute boomHandler)
      (emptyConfigs Method.GET) = .ok {} ∧
    (200 : Nat) < 400 ∧
    (sampleRoute boomHandler).handler
      { status := 200, text := "payload", headers := [] } =
      .error "boom handler" ∧
    OnErrorTotal [] ∧
    HTTPClient.send emptyConfigs [] (constTransport (.ok 200 "payload" []))
      (sampleRoute boomHandler) =
      (Event.logSuccess "https://api.test/ok" Method.GET 200 ::
        Event.handlerCalled { status := 200, text := "payload", headers := [] } ::
        Event.errorLogged (mkRequestError (strOr "boom handler" "Unknown error")
          "https://api.test/ok" Method.GET) ::
        onErrorEvents 0 (mkRequestError (strOr "boom handler" "Unknown error")
          "https://api.test/ok" Method.GET), .ok none) := by
  have hw : OnErrorTotal [] := by
    intro mw hmw e r c
    exact absurd hmw (List.not_mem_nil mw)
  exact ⟨rfl, by decide, rfl, hw,
    c10_handler_crash_absorbed emptyConfigs []
      (constTransport (.ok 200 "payload" [])) (sampleRoute boomHandler) {}
      200 "payload" [] { status := 200, text := "payload", headers := [] }
      "boom handler" rfl rfl (by decide) rfl rfl hw⟩

/-- C9: the Runner processes the registered routes in registration order: an
empty list does nothing; a route whose send returns absence is logged as a
failure and the loop continues with the remaining routes exactly as it would
process them alone (one bad route never prevents subsequent routes); a route
whose send returns a Response (with its stored handler result validating
normally) is logged as a success and the loop likewise continues; in both
cases the Runner pauses for the fixed 0.5 delay after the route, before the
rest. -/
theorem c9_runner_loop (request_configs : Method → Config)
    (mws : List Middleware) (transport : Transport) (route : Route)
    (rest : List Route) :
    (FastHTTP.runLoop request_configs mws transport [] = ([], .ok ())) ∧
    ((HTTPClient.send request_configs mws transport route).2 = .ok none →
      FastHTTP.runLoop request_configs mws transport (route :: rest) =
        ((HTTPClient.send request_configs mws transport route).1 ++
          Event.logFail route.method route.url :: Event.sleep (1 / 2) ::
          (FastHTTP.runLoop request_configs mws transport rest).1,
          (FastHTTP.runLoop request_configs mws transport rest).2)) ∧
    (∀ resp,
      (HTTPClient.send request_configs mws transport route).2 = .ok (some resp) →
      runnerValidate route resp = .ok () →
      FastHTTP.runLoop request_configs mws transport (route :: rest) =
        ((HTTPClient.send request_configs mws transport route).1 ++
          Event.logOk route.method route.url resp.status :: Event.sleep (1 / 2) ::
          (FastHTTP.runLoop request_configs mws transport rest).1,
          (FastHTTP.runLoop request_configs mws transport rest).2)) := by
  refine ⟨rfl, ?_, ?_⟩
  · intro h
    simp only [FastHTTP.runLoop, h]
  · intro resp h hv
    simp only [FastHTTP.runLoop, h, hv]

/-- A transport that fails with a connectivity fault on one URL and succeeds
elsewhere (for exercising the runner's partial-failure behaviour). -/
def mixedTransport : Transport := fun _ url _ _ _ _ _ =>
  if url = "https://api.test/fail" then .connError "nope"
  else .ok 200 "payload" []

/-- A route whose send will fail under `mixedTransport`. -/
def failingRoute : Route :=
  { method := .POST, url := "https://api.test/fail",
    handler := constHandler .hNone }

/-- C9 witness: a failing route followed by a remaining list — the failure is
logged, the 0.5 pause happens, and the loop continues with the rest. -/
theorem c9_runner_loop_witness :
    (HTTPClient.send emptyConfigs [] mixedTransport failingRoute).2 = .ok none ∧
    FastHTTP.runLoop emptyConfigs [] mixedTransport
        (failingRoute :: [sampleRoute (constHandler .hNone)]) =
      ((HTTPClient.send emptyConfigs [] mixedTransport failingRoute).1 ++
        Event.logFail Method.POST "https://api.test/fail" ::
        Event.sleep (1 / 2) ::
        (FastHTTP.runLoop emptyConfigs [] mixedTransport
          [sampleRoute (constHandler .hNone)]).1,
        (FastHTTP.runLoop emptyConfigs [] mixedTransport
          [sampleRoute (constHandler .hNone)]).2) :=
  ⟨rfl, (c9_runner_loop emptyConfigs [] mixedTransport failingRoute
    [sampleRoute (constHandler .hNone)]).2.1 rfl⟩

/-- A `before_request` hook that mutates the config dict it was given in
place (the `config["timeout"] = ...; return config` style that middleware.py
explicitly invites: "The config dict is mutable and changes will affect the
request") and returns the same reference. -/
def mutatingHookR : PreSendHookR :=
  fun r h => (r, h.set r { timeout := some 5 })

/-- A `before_request` hook that leaves its input dict untouched and returns
a reference to a freshly allocated modified copy. -/
def copyingHookR : PreSendHookR :=
  fun r h => (h.cells.length, ⟨h.cells ++ [{ h.get r with timeout := some 7 }]⟩)

/-- The state `FastHTTP.__init__` builds with no per-method configuration:
five distinct empty config dicts, one per method. -/
def initStateR : ClientStateR :=
  { request_configs := fun m =>
      match m with
      | .GET => 0
      | .POST => 1
      | .PUT => 2
      | .PATCH => 3
      | .DELETE => 4
    heap := ⟨[{}, {}, {}, {}, {}]⟩ }

/-- C5 counterexample: the claim says the config produced by the pre-send
chain applies to that single call only, so a later send of the same method
starts from the originally registered defaults.  With a hook that mutates
the config dict in place, the mutation lands in the very dict stored in
`request_configs` (the engine hands the hook that object, not a copy), so
after one GET send the GET defaults have changed from `{}` to
`{timeout: 5}`. -/
theorem c5_defaults_mutated_counterexample :
    initStateR.defaults Method.GET = {} ∧
    (sendConfigPhaseR initStateR [mutatingHookR] Method.GET).1 =
      { timeout := some 5 } ∧
    ((sendConfigPhaseR initStateR [mutatingHookR] Method.GET).2).defaults
      Method.GET = { timeout := some 5 } ∧
    ((sendConfigPhaseR initStateR [mutatingHookR] Method.GET).2).defaults
      Method.GET ≠ initStateR.defaults Method.GET := by
  refine ⟨rfl, rfl, rfl, ?_⟩
  decide

/-- A hook never overwrites an existing config dict: it may read cells and
allocate fresh ones, but every cell present before the hook ran holds the
same config afterwards. -/
def PreservesCells (f : PreSendHookR) : Prop :=
  ∀ r h, h.cells.length ≤ ((f r h).2).cells.length ∧
    ∀ i, i < h.cells.length → ((f r h).2).cells.getD i {} = h.cells.getD i {}

lemma processBeforeRequestR_preserves (hooks : List PreSendHookR)
    (hp : ∀ f ∈ hooks, PreservesCells f) (r : ConfigRef) (h : ConfigHeap) :
    h.cells.length ≤ ((processBeforeRequestR hooks r h).2).cells.length ∧
    ∀ i, i < h.cells.length →
      ((processBeforeRequestR hooks r h).2).cells.getD i {} =
        h.cells.getD i {} := by
  induction hooks generalizing r h with
  | nil => exact ⟨Nat.le_refl _, fun i _ => rfl⟩
  | cons f fs ih =>
    have hstep := hp f (by simp) r h
    have hfs : ∀ g ∈ fs, PreservesCells g := fun g hg => hp g (by simp [hg])
    have hcons : processBeforeRequestR (f :: fs) r h =
        processBeforeRequestR fs ((f r h).1) ((f r h).2) := by
      simp [processBeforeRequestR]
    have hrec := ih hfs ((f r h).1) ((f r h).2)
    constructor
    · rw [hcons]
      exact Nat.le_trans hstep.1 hrec.1
    · intro i hi
      rw [hcons, hrec.2 i (Nat.lt_of_lt_of_le hi hstep.1), hstep.2 i hi]

/-- C5 (amended): the engine itself never rebinds the per-method map and
never writes the heap — so as long as every pre-send hook refrains from
mutating existing config dicts in place (it may return fresh copies), the
defaults observed for every method after the config-resolution phase of a
send are exactly the originally registered ones.  (An in-place-mutating
hook can and does change the defaults — the counterexample above.) -/
theorem c5_defaults_frame (st : ClientStateR) (hooks : List PreSendHookR)
    (m : Method)
    (hp : ∀ f ∈ hooks, PreservesCells f)
    (hv : ∀ m2, st.request_configs m2 < st.heap.cells.length) :
    ((sendConfigPhaseR st hooks m).2).request_configs = st.request_configs ∧
    ∀ m2, ((sendConfigPhaseR st hooks m).2).defaults m2 = st.defaults m2 := by
  have hpres := processBeforeRequestR_preserves hooks hp
    (st.request_configs m) st.heap
  refine ⟨rfl, ?_⟩
  intro m2
  show ConfigHeap.get ((processBeforeRequestR hooks (st.request_configs m)
    st.heap).2) (st.request_configs m2) = st.heap.get (st.request_configs m2)
  exact hpres.2 (st.request_configs m2) (hv m2)

/-- C5 witness: the amended theorem with a copy-on-write hook on the initial
state. -/
theorem c5_defaults_frame_witness :
    (∀ f ∈ [copyingHookR], PreservesCells f) ∧
    (∀ m2, initStateR.request_configs m2 < initStateR.heap.cells.length) ∧
    ((sendConfigPhaseR initStateR [copyingHookR] Method.GET).2).defaults
      Method.GET = initStateR.defaults Method.GET := by
  have hpc : PreservesCells copyingHookR := by
    intro r h
    constructor
    · simp [copyingHookR]
    · intro i hi
      simp [copyingHookR, List.getD_eq_getElem?_getD, List.getElem?_append, hi]
  have hp : ∀ f ∈ [copyingHookR], PreservesCells f := by
    intro f hf
    rcases List.mem_singleton.mp hf
    exact hpc
  have hv : ∀ m2, initStateR.request_configs m2 < initStateR.heap.cells.length := by
    intro m2
    cases m2 <;> decide
  exact ⟨hp, hv,
    (c5_defaults_frame initStateR [copyingHookR] Method.GET hp hv).2 Method.GET⟩

end FastHTTPSpec
